import Mathlib

/-!
Verification of the HTTP/WebSocket RPC gateway handlers
(`mopidy/http/handlers.py`).

Connections are identified by natural numbers.  The class-level Python
`set` of clients is embedded as a duplicate-free `List Nat` with the
`set.add` and `set.discard` operations.  Tornado collaborator behaviour
at the boundary (whether a write to a given connection raises, what the
dispatcher returns) is passed in as explicit parameters, and each
handler method is embedded as a pure function from those parameters to a
record of the observable effects it performs.
-/

namespace Handlers

/-- Python `set.add`: a no-op when the element is already present. -/
def setAdd (s : List Nat) (c : Nat) : List Nat :=
  if c ∈ s then s else s ++ [c]

/-- Python `set.discard`: removes the element when present, no error otherwise. -/
def setDiscard (s : List Nat) (c : Nat) : List Nat :=
  s.filter (fun x => x ≠ c)

/-- Effect of `WebSocketHandler.open` on the class-level `clients` set:
`self.clients.add(self)`. -/
def wsOpen (s : List Nat) (c : Nat) : List Nat := setAdd s c

/-- Effect of `WebSocketHandler.on_close` on the class-level `clients` set:
`self.clients.discard(self)`. -/
def wsOnClose (s : List Nat) (c : Nat) : List Nat := setDiscard s c

/-- A WebSocket lifecycle event observed by the handler. -/
inductive WsEvent where
  | opened (c : Nat)
  | closedEv (c : Nat)
deriving DecidableEq, Repr

/-- Apply one lifecycle event to the registry. -/
def applyEvent (s : List Nat) : WsEvent → List Nat
  | WsEvent.opened c => wsOpen s c
  | WsEvent.closedEv c => wsOnClose s c

/-- Apply a sequence of lifecycle events to the registry. -/
def applyTrace (s : List Nat) (tr : List WsEvent) : List Nat :=
  tr.foldl applyEvent s

/-- One step of the reference predicate: is connection `c` open after the
event, given whether it was open before. -/
def stepActive (c : Nat) (b : Bool) : WsEvent → Bool
  | WsEvent.opened d => if d = c then true else b
  | WsEvent.closedEv d => if d = c then false else b

/-- Reference predicate: connection `c` has an open event in the trace that is
not followed by a close event for `c`. -/
def activeAfter (tr : List WsEvent) (c : Nat) : Bool :=
  tr.foldl (stepActive c) false

/-- `WebSocketHandler.broadcast`: iterates the clients set writing `msg` to
each client in turn.  `writeOk c` tells whether the Tornado-level write to
client `c` succeeds; the source loop has no exception handling, so a failing
write raises out of the loop.  Returns the list of performed deliveries and
`some c` when the write to `c` raised out of the call. -/
def broadcast (writeOk : Nat → Bool) (msg : String) :
    List Nat → List (Nat × String) × Option Nat
  | [] => ([], none)
  | c :: rest =>
      if writeOk c then
        let r := broadcast writeOk msg rest
        ((c, msg) :: r.1, r.2)
      else ([], some c)

/-- `WebSocketHandler.check_origin`: always allows the connection. -/
def check_origin (origin : String) : Bool :=
  true

/-- Observable effects of one `WebSocketHandler.on_message` call. -/
structure WsMsgOutcome where
  dispatched : Bool
  written : Option String
  loggedError : Bool
  closedConn : Bool
  raised : Bool
deriving DecidableEq, Repr

/-- `WebSocketHandler.on_message`.  `dispatch` is the behaviour of
`self.jsonrpc.handle_json` on this message: `Except.error e` when it raises,
`Except.ok none` when it returns `None` (a notification), `Except.ok (some r)`
when it returns response `r`.  `writeOk` is whether `self.write_message`
succeeds; `wsConnection` is whether `self.ws_connection` is set when an
exception is caught.  An empty message is falsy in Python, so the handler
returns immediately; the `if response and ...` guard makes an empty response
string falsy as well, so it is not written back. -/
def on_message (dispatch : Except String (Option String)) (writeOk : Bool)
    (wsConnection : Bool) (message : String) : WsMsgOutcome :=
  if message = "" then
    ⟨false, none, false, false, false⟩
  else
    match dispatch with
    | Except.error _ => ⟨true, none, true, wsConnection, false⟩
    | Except.ok none => ⟨true, none, false, false, false⟩
    | Except.ok (some r) =>
        if r = "" then ⟨true, none, false, false, false⟩
        else if writeOk then ⟨true, some r, false, false, false⟩
        else ⟨true, none, true, wsConnection, false⟩

/-- Observable effects of one `JsonRpcHandler` request. -/
structure HttpResponse where
  headers : List (String × String)
  bodyChunks : List String
  dispatched : Bool
  errorStatus : Option Nat
  loggedError : Bool
  finished : Bool
  raised : Bool
deriving DecidableEq, Repr

/-- `set_mopidy_headers`: sets the cache-control and version headers on the
request handler.  `version` is `mopidy.__version__`, supplied by the package
outside this module. -/
def set_mopidy_headers (version : String) (hs : List (String × String)) :
    List (String × String) :=
  hs ++ [("Cache-Control", "no-cache"), ("X-Mopidy-Version", version)]

/-- `JsonRpcHandler.set_extra_headers`: the mopidy headers plus the JSON
content negotiation headers. -/
def set_extra_headers (version : String) (hs : List (String × String)) :
    List (String × String) :=
  set_mopidy_headers version hs ++
    [("Accept", "application/json"), ("Content-Type", "application/json; utf-8")]

/-- `JsonRpcHandler.head`: sets the extra headers and finishes, never touching
the dispatcher and writing no body. -/
def jsonRpcHead (version : String) : HttpResponse :=
  { headers := set_extra_headers version []
    bodyChunks := []
    dispatched := false
    errorStatus := none
    loggedError := false
    finished := true
    raised := false }

/-- `JsonRpcHandler.post`.  `dispatch` is the behaviour of
`self.jsonrpc.handle_json` on this body, as in `on_message`.  An empty body is
falsy, so the handler returns before setting any header or writing anything.
Otherwise the extra headers are set first (inside the `try`), then the
dispatcher runs; a raised exception is caught, logged, and answered with
`self.write_error(500)`, which produces a generic error response from the
status code alone — the caught exception is not passed to it. -/
def jsonRpcPost (version : String) (dispatch : Except String (Option String))
    (reqBody : String) : HttpResponse :=
  if reqBody = "" then
    { headers := []
      bodyChunks := []
      dispatched := false
      errorStatus := none
      loggedError := false
      finished := true
      raised := false }
  else
    match dispatch with
    | Except.error _ =>
        { headers := set_extra_headers version []
          bodyChunks := []
          dispatched := true
          errorStatus := some 500
          loggedError := true
          finished := true
          raised := false }
    | Except.ok none =>
        { headers := set_extra_headers version []
          bodyChunks := []
          dispatched := true
          errorStatus := none
          loggedError := false
          finished := true
          raised := false }
    | Except.ok (some r) =>
        { headers := set_extra_headers version []
          bodyChunks := if r = "" then [] else [r]
          dispatched := true
          errorStatus := none
          loggedError := false
          finished := true
          raised := false }

/-- Targets registered in the `JsonRpcInspector` built by
`make_jsonrpc_wrapper`: class-level attributes of the core API. -/
inductive InspectTarget where
  | coreGetUriSchemes
  | coreGetVersion
  | libraryController
  | playbackController
  | playlistsController
  | tracklistController
deriving DecidableEq, Repr

/-- Targets registered in the `JsonRpcWrapper` built by
`make_jsonrpc_wrapper`: the inspector itself plus attributes bound to the
given core actor (identified by a number). -/
inductive CoreTarget where
  | describeTarget
  | get_uri_schemes (actor : Nat)
  | get_version (actor : Nat)
  | libraryTarget (actor : Nat)
  | playback (actor : Nat)
  | playlists (actor : Nat)
  | tracklist (actor : Nat)
deriving DecidableEq, Repr

/-- The `objects` table handed to `JsonRpcInspector` in
`make_jsonrpc_wrapper`. -/
def inspectorObjects : List (String × InspectTarget) :=
  [("core.get_uri_schemes", InspectTarget.coreGetUriSchemes),
    ("core.get_version", InspectTarget.coreGetVersion),
    ("core.library", InspectTarget.libraryController),
    ("core.playback", InspectTarget.playbackController),
    ("core.playlists", InspectTarget.playlistsController),
    ("core.tracklist", InspectTarget.tracklistController)]

/-- The `objects` table handed to `JsonRpcWrapper` in
`make_jsonrpc_wrapper`, for a given core actor. -/
def wrapperObjects (actor : Nat) : List (String × CoreTarget) :=
  [("core.describe", CoreTarget.describeTarget),
    ("core.get_uri_schemes", CoreTarget.get_uri_schemes actor),
    ("core.get_version", CoreTarget.get_version actor),
    ("core.library", CoreTarget.libraryTarget actor),
    ("core.playback", CoreTarget.playback actor),
    ("core.playlists", CoreTarget.playlists actor),
    ("core.tracklist", CoreTarget.tracklist actor)]

/-- Process-wide state: the single class-level `WebSocketHandler.clients` set
shared by every handler instance. -/
structure ProcessState where
  clients : List Nat
deriving DecidableEq, Repr

/-- Opening a connection through a particular gateway application instance.
Because `clients` is a class attribute, `self.clients.add(self)` mutates the
one shared set no matter which instance or application handled the open. -/
def openVia (gateway : Nat) (st : ProcessState) (conn : Nat) : ProcessState :=
  { clients := wsOpen st.clients conn }

/-- Register a sequence of `(gateway, connection)` opens. -/
def openAll (st : ProcessState) (regs : List (Nat × Nat)) : ProcessState :=
  regs.foldl (fun s gc => openVia gc.1 s gc.2) st

lemma mem_setAdd_self (s : List Nat) (c : Nat) : c ∈ setAdd s c := by
  unfold setAdd
  by_cases h : c ∈ s <;> simp [h]

lemma mem_setAdd_iff (s : List Nat) (c d : Nat) :
    c ∈ setAdd s d ↔ (d = c ∨ c ∈ s) := by
  unfold setAdd
  by_cases h : d ∈ s
  · simp only [h, if_true]
    constructor
    · exact fun hc => Or.inr hc
    · rintro (rfl | hc)
      · exact h
      · exact hc
  · simp only [h, if_false, List.mem_append, List.mem_singleton]
    constructor
    · rintro (hc | rfl)
      · exact Or.inr hc
      · exact Or.inl rfl
    · rintro (rfl | hc)
      · exact Or.inr rfl
      · exact Or.inl hc

lemma mem_setDiscard_iff (s : List Nat) (c d : Nat) :
    c ∈ setDiscard s d ↔ (c ∈ s ∧ ¬ d = c) := by
  unfold setDiscard
  simp only [List.mem_filter, ne_eq, decide_not, Bool.not_eq_true', decide_eq_false_iff_not]
  constructor
  · rintro ⟨hc, hne⟩
    exact ⟨hc, fun h => hne h.symm⟩
  · rintro ⟨hc, hne⟩
    exact ⟨hc, fun h => hne h.symm⟩

lemma nodup_setAdd {s : List Nat} (h : s.Nodup) (c : Nat) : (setAdd s c).Nodup := by
  unfold setAdd
  by_cases hc : c ∈ s
  · simpa [hc] using h
  · simp only [hc, if_false]
    rw [List.nodup_append]
    refine ⟨h, List.nodup_singleton c, ?_⟩
    intro x hx hx1
    simp only [List.mem_singleton] at hx1
    subst hx1
    exact hc hx

lemma nodup_setDiscard {s : List Nat} (h : s.Nodup) (c : Nat) :
    (setDiscard s c).Nodup :=
  h.filter _

lemma nodup_applyEvent {s : List Nat} (h : s.Nodup) (e : WsEvent) :
    (applyEvent s e).Nodup := by
  cases e with
  | opened c => exact nodup_setAdd h c
  | closedEv c => exact nodup_setDiscard h c

lemma nodup_applyTrace (tr : List WsEvent) {s : List Nat} (h : s.Nodup) :
    (applyTrace s tr).Nodup := by
  induction tr generalizing s with
  | nil => exact h
  | cons e rest ih => exact ih (nodup_applyEvent h e)

lemma mem_applyTrace (tr : List WsEvent) (s : List Nat) (c : Nat) :
    c ∈ applyTrace s tr ↔ tr.foldl (stepActive c) (decide (c ∈ s)) = true := by
  induction tr generalizing s with
  | nil => simp [applyTrace]
  | cons e rest ih =>
      have hstep : decide (c ∈ applyEvent s e) = stepActive c (decide (c ∈ s)) e := by
        cases e with
        | opened d =>
            by_cases hd : d = c
            · subst hd
              simp [applyEvent, stepActive, wsOpen, mem_setAdd_self]
            · simp [applyEvent, stepActive, wsOpen, mem_setAdd_iff, hd]
        | closedEv d =>
            by_cases hd : d = c
            · subst hd
              simp [applyEvent, stepActive, wsOnClose, mem_setDiscard_iff]
            · simp [applyEvent, stepActive, wsOnClose, mem_setDiscard_iff, hd]
      calc c ∈ applyTrace s (e :: rest)
          ↔ c ∈ applyTrace (applyEvent s e) rest := Iff.rfl
        _ ↔ rest.foldl (stepActive c) (decide (c ∈ applyEvent s e)) = true := ih _
        _ ↔ (e :: rest).foldl (stepActive c) (decide (c ∈ s)) = true := by
              rw [hstep]; rfl

lemma broadcast_eq (writeOk : Nat → Bool) (msg : String) (clients : List Nat) :
    broadcast writeOk msg clients =
      ((clients.takeWhile writeOk).map (fun c => (c, msg)),
        (clients.dropWhile writeOk).head?) := by
  induction clients with
  | nil => rfl
  | cons c rest ih =>
      by_cases h : writeOk c
      · simp [broadcast, h, ih, List.takeWhile_cons, List.dropWhile_cons]
      · simp [broadcast, h, List.takeWhile_cons, List.dropWhile_cons]

lemma mem_openAll_of_mem {st : ProcessState} {c : Nat} (h : c ∈ st.clients)
    (regs : List (Nat × Nat)) : c ∈ (openAll st regs).clients := by
  induction regs generalizing st with
  | nil => exact h
  | cons gc rest ih =>
      exact ih ((mem_setAdd_iff st.clients c gc.2).mpr (Or.inr h))

lemma mem_openAll {regs : List (Nat × Nat)} {g c : Nat} (h : (g, c) ∈ regs)
    (st : ProcessState) : c ∈ (openAll st regs).clients := by
  induction regs generalizing st with
  | nil => cases h
  | cons gc rest ih =>
      rcases List.mem_cons.mp h with hgc | hgc
      · have hc : c ∈ (openVia gc.1 st gc.2).clients := by
          have : gc.2 = c := by rw [← hgc]
          rw [← this]
          exact mem_setAdd_self st.clients gc.2
        exact mem_openAll_of_mem hc rest
      · exact ih hgc _

lemma takeWhile_eq_self_of_all {p : Nat → Bool} {l : List Nat}
    (h : ∀ c ∈ l, p c = true) : l.takeWhile p = l := by
  induction l with
  | nil => rfl
  | cons a t ih =>
      have ha := h a (List.mem_cons_self a t)
      have ht := ih (fun c hc => h c (List.mem_cons_of_mem a hc))
      simp [List.takeWhile_cons, ha, ht]

lemma dropWhile_eq_nil_of_all {p : Nat → Bool} {l : List Nat}
    (h : ∀ c ∈ l, p c = true) : l.dropWhile p = [] := by
  induction l with
  | nil => rfl
  | cons a t ih =>
      have ha := h a (List.mem_cons_self a t)
      have ht := ih (fun c hc => h c (List.mem_cons_of_mem a hc))
      simp [List.dropWhile_cons, ha, ht]

/-- Claim C1, counterexample: with clients 1 and 2 registered and the write to
client 1 failing, broadcast raises the failure out of the call (the second
component is some 1) and client 2 never receives the message, contradicting
the claim that a write failure is isolated. -/
theorem broadcast_failure_not_isolated :
    (broadcast (fun c => c != 1) "event" [1, 2]).2 = some 1 ∧
      (2, "event") ∉ (broadcast (fun c => c != 1) "event" [1, 2]).1 := by
  decide

/-- Claim C1, amended: broadcast writes msg to the registered connections in
iteration order up to, and not including, the first connection whose write
fails; that first failure raises out of the broadcast call and the remaining
connections are not written to.  When every write succeeds, every registered
connection receives msg and nothing is raised. -/
theorem broadcast_prefix_delivery (writeOk : Nat → Bool) (msg : String)
    (clients : List Nat) :
    broadcast writeOk msg clients =
        ((clients.takeWhile writeOk).map (fun c => (c, msg)),
          (clients.dropWhile writeOk).head?) ∧
      ((∀ c ∈ clients, writeOk c = true) →
        broadcast writeOk msg clients = (clients.map (fun c => (c, msg)), none)) := by
  refine ⟨broadcast_eq writeOk msg clients, fun hall => ?_⟩
  rw [broadcast_eq, takeWhile_eq_self_of_all hall, dropWhile_eq_nil_of_all hall]
  rfl

/-- Witness for the amended claim C1 at a concrete input where every write
succeeds. -/
theorem broadcast_prefix_delivery_witness :
    broadcast (fun _ => true) "event" [1, 2, 3] =
      ([1, 2, 3].map (fun c => (c, "event")), none) :=
  (broadcast_prefix_delivery (fun _ => true) "event" [1, 2, 3]).2
    (by intro c _; rfl)

/-- Claim C2: the registry contains a connection right after its open, does
not contain it right after its on_close, closing an absent connection is a
no-op, the registry never holds duplicates after any event trace, and after
any trace from the empty registry a connection is a member exactly when its
last lifecycle event in the trace is an open. -/
theorem registry_tracks_connections :
    (∀ (s : List Nat) (c : Nat), c ∈ wsOpen s c) ∧
      (∀ (s : List Nat) (c : Nat), c ∉ wsOnClose s c) ∧
      (∀ (s : List Nat) (c : Nat), c ∉ s → wsOnClose s c = s) ∧
      (∀ tr : List WsEvent, (applyTrace [] tr).Nodup) ∧
      (∀ (tr : List WsEvent) (c : Nat),
        c ∈ applyTrace [] tr ↔ activeAfter tr c = true) := by
  refine ⟨fun s c => mem_setAdd_self s c, ?_, ?_, ?_, ?_⟩
  · intro s c hc
    exact ((mem_setDiscard_iff s c c).mp hc).2 rfl
  · intro s c hc
    unfold wsOnClose setDiscard
    apply List.filter_eq_self.mpr
    intro a ha
    have hac : a ≠ c := fun hac => hc (hac ▸ ha)
    simp [hac]
  · intro tr
    exact nodup_applyTrace tr List.nodup_nil
  · intro tr c
    have h := mem_applyTrace tr [] c
    simpa [activeAfter] using h

/-- Witness for claim C2 at concrete inputs. -/
theorem registry_tracks_connections_witness :
    (5 ∈ wsOpen [] 5) ∧ (5 ∉ wsOnClose [5] 5) ∧ wsOnClose [1, 2] 5 = [1, 2] :=
  ⟨registry_tracks_connections.1 [] 5,
    registry_tracks_connections.2.1 [5] 5,
    registry_tracks_connections.2.2.1 [1, 2] 5 (by decide)⟩

/-- Claim C3: on_message never lets an exception escape; when the dispatcher
raises, or when writing a non-empty response raises, the error is logged and
the connection is closed exactly when ws_connection is set. -/
theorem on_message_error_handling (dispatch : Except String (Option String))
    (writeOk wsConnection : Bool) (message : String) :
    (on_message dispatch writeOk wsConnection message).raised = false ∧
      (∀ e, message ≠ "" → dispatch = Except.error e →
        (on_message dispatch writeOk wsConnection message).loggedError = true ∧
          (on_message dispatch writeOk wsConnection message).closedConn =
            wsConnection) ∧
      (∀ r, message ≠ "" → dispatch = Except.ok (some r) → r ≠ "" →
        writeOk = false →
        (on_message dispatch writeOk wsConnection message).loggedError = true ∧
          (on_message dispatch writeOk wsConnection message).closedConn =
            wsConnection) := by
  refine ⟨?_, ?_, ?_⟩
  · unfold on_message
    by_cases hm : message = ""
    · simp [hm]
    · cases dispatch with
      | error e => simp [hm]
      | ok o =>
          cases o with
          | none => simp [hm]
          | some r =>
              by_cases hr : r = "" <;> by_cases hw : writeOk <;>
                simp [hm, hr, hw]
  · intro e hm hd
    subst hd
    simp [on_message, hm]
  · intro r hm hd hr hw
    subst hd
    subst hw
    simp [on_message, hm, hr]

/-- Witness for claim C3 at a concrete input where the dispatcher raises. -/
theorem on_message_error_handling_witness :
    (on_message (Except.error "boom") true true "m").loggedError = true ∧
      (on_message (Except.error "boom") true true "m").closedConn = true :=
  (on_message_error_handling (Except.error "boom") true true "m").2.1 "boom"
    (by decide) rfl

/-- Claim C4: an empty WebSocket message makes on_message a pure no-op, and an
empty POST body makes post a pure no-op: no dispatch, no write, no header, no
error. -/
theorem empty_payload_noop :
    (∀ (dispatch : Except String (Option String)) (writeOk wsConnection : Bool),
      on_message dispatch writeOk wsConnection "" =
        ⟨false, none, false, false, false⟩) ∧
      (∀ (version : String) (dispatch : Except String (Option String)),
        jsonRpcPost version dispatch "" =
          { headers := []
            bodyChunks := []
            dispatched := false
            errorStatus := none
            loggedError := false
            finished := true
            raised := false }) :=
  ⟨fun _ _ _ => rfl, fun _ _ => rfl⟩

/-- Claim C5: when the dispatcher raises on a non-empty body, post answers
with the generic 500 server-fault path, does not raise, and produces a
response that is independent of the exception, so no internal detail of the
exception reaches the response body. -/
theorem post_error_generic_500 (version e reqBody : String)
    (h : reqBody ≠ "") :
    (jsonRpcPost version (Except.error e) reqBody).errorStatus = some 500 ∧
      (jsonRpcPost version (Except.error e) reqBody).raised = false ∧
      (∀ e2, jsonRpcPost version (Except.error e) reqBody =
        jsonRpcPost version (Except.error e2) reqBody) := by
  refine ⟨?_, ?_, ?_⟩
  · simp [jsonRpcPost, h]
  · simp [jsonRpcPost, h]
  · intro e2
    simp [jsonRpcPost, h]

/-- Witness for claim C5 at a concrete input. -/
theorem post_error_generic_500_witness :
    (jsonRpcPost "1.0" (Except.error "boom") "x").errorStatus = some 500 :=
  (post_error_generic_500 "1.0" "boom" "x" (by decide)).1

/-- Claim C6: head sets the Cache-Control, X-Mopidy-Version, Accept and
Content-Type headers, finishes the response, never invokes the dispatcher and
writes no body. -/
theorem head_short_circuits (version : String) :
    (jsonRpcHead version).dispatched = false ∧
      (jsonRpcHead version).bodyChunks = [] ∧
      (jsonRpcHead version).finished = true ∧
      ("Cache-Control", "no-cache") ∈ (jsonRpcHead version).headers ∧
      ("X-Mopidy-Version", version) ∈ (jsonRpcHead version).headers ∧
      ("Accept", "application/json") ∈ (jsonRpcHead version).headers ∧
      ("Content-Type", "application/json; utf-8") ∈
        (jsonRpcHead version).headers := by
  refine ⟨rfl, rfl, rfl, ?_, ?_, ?_, ?_⟩ <;>
    simp [jsonRpcHead, set_extra_headers, set_mopidy_headers]

/-- Claim C7, counterexample: the response to a POST with an empty body
carries no headers at all, in particular neither Cache-Control nor
X-Mopidy-Version, because post returns before set_extra_headers runs. -/
theorem empty_body_response_lacks_headers :
    ("Cache-Control", "no-cache") ∉
        (jsonRpcPost "1.0" (Except.ok none) "").headers ∧
      ("X-Mopidy-Version", "1.0") ∉
        (jsonRpcPost "1.0" (Except.ok none) "").headers := by
  decide

/-- Claim C7, amended: every response to a HEAD request and every response to
a POST with a non-empty body, including the notification and error cases,
carries the Cache-Control no-cache header and the X-Mopidy-Version header;
the response to an empty-body POST carries no handler-set headers. -/
theorem responses_carry_mopidy_headers (version : String)
    (dispatch : Except String (Option String)) (reqBody : String) :
    (("Cache-Control", "no-cache") ∈ (jsonRpcHead version).headers ∧
        ("X-Mopidy-Version", version) ∈ (jsonRpcHead version).headers) ∧
      (reqBody ≠ "" →
        ("Cache-Control", "no-cache") ∈
            (jsonRpcPost version dispatch reqBody).headers ∧
          ("X-Mopidy-Version", version) ∈
            (jsonRpcPost version dispatch reqBody).headers) ∧
      (jsonRpcPost version dispatch "").headers = [] := by
  refine ⟨⟨?_, ?_⟩, ?_, rfl⟩
  · simp [jsonRpcHead, set_extra_headers, set_mopidy_headers]
  · simp [jsonRpcHead, set_extra_headers, set_mopidy_headers]
  · intro h
    cases dispatch with
    | error e =>
        constructor <;> simp [jsonRpcPost, h, set_extra_headers, set_mopidy_headers]
    | ok o =>
        cases o with
        | none =>
            constructor <;>
              simp [jsonRpcPost, h, set_extra_headers, set_mopidy_headers]
        | some r =>
            constructor <;>
              simp [jsonRpcPost, h, set_extra_headers, set_mopidy_headers]

/-- Witness for the amended claim C7 at a concrete input. -/
theorem responses_carry_mopidy_headers_witness :
    ("Cache-Control", "no-cache") ∈
        (jsonRpcPost "1.0" (Except.ok none) "x").headers ∧
      ("X-Mopidy-Version", "1.0") ∈
        (jsonRpcPost "1.0" (Except.ok none) "x").headers :=
  (responses_carry_mopidy_headers "1.0" (Except.ok none) "x").2.1 (by decide)

/-- Claim C8: for every core actor the wrapper dispatch table has exactly the
seven expected method names in order, each name resolves to the corresponding
target on that actor, and the introspection table has exactly the dispatch
table names minus core.describe.  The tables are plain values built once from
the actor, so resolution of a name can never change afterwards. -/
theorem rpc_table_fixed (actor : Nat) :
    (wrapperObjects actor).map Prod.fst =
        ["core.describe", "core.get_uri_schemes", "core.get_version",
          "core.library", "core.playback", "core.playlists",
          "core.tracklist"] ∧
      ((wrapperObjects actor).lookup "core.describe" =
          some CoreTarget.describeTarget ∧
        (wrapperObjects actor).lookup "core.get_uri_schemes" =
          some (CoreTarget.get_uri_schemes actor) ∧
        (wrapperObjects actor).lookup "core.get_version" =
          some (CoreTarget.get_version actor) ∧
        (wrapperObjects actor).lookup "core.library" =
          some (CoreTarget.libraryTarget actor) ∧
        (wrapperObjects actor).lookup "core.playback" =
          some (CoreTarget.playback actor) ∧
        (wrapperObjects actor).lookup "core.playlists" =
          some (CoreTarget.playlists actor) ∧
        (wrapperObjects actor).lookup "core.tracklist" =
          some (CoreTarget.tracklist actor)) ∧
      inspectorObjects.map Prod.fst =
        ((wrapperObjects actor).map Prod.fst).filter
          (fun n => n != "core.describe") :=
  ⟨rfl, ⟨rfl, rfl, rfl, rfl, rfl, rfl, rfl⟩, rfl⟩

/-- Claim C9: the clients set is one process-wide value: opening a connection
through any gateway instance has the same effect on it, and a broadcast whose
writes all succeed reaches every connection opened through any gateway. -/
theorem shared_registry_broadcast :
    (∀ (g1 g2 : Nat) (st : ProcessState) (c : Nat),
      openVia g1 st c = openVia g2 st c) ∧
      (∀ (regs : List (Nat × Nat)) (g c : Nat) (msg : String),
        (g, c) ∈ regs →
        (c, msg) ∈
          (broadcast (fun _ => true) msg (openAll ⟨[]⟩ regs).clients).1) := by
  constructor
  · intro g1 g2 st c
    rfl
  · intro regs g c msg h
    have hc : c ∈ (openAll ⟨[]⟩ regs).clients := mem_openAll h ⟨[]⟩
    rw [broadcast_eq]
    rw [takeWhile_eq_self_of_all (fun _ _ => rfl)]
    exact List.mem_map.mpr ⟨c, hc, rfl⟩

/-- Witness for claim C9 at a concrete input: connections opened through two
different gateway instances both receive the broadcast. -/
theorem shared_registry_broadcast_witness :
    (7, "ev") ∈
        (broadcast (fun _ => true) "ev"
          (openAll ⟨[]⟩ [(1, 7), (2, 8)]).clients).1 ∧
      (8, "ev") ∈
        (broadcast (fun _ => true) "ev"
          (openAll ⟨[]⟩ [(1, 7), (2, 8)]).clients).1 :=
  ⟨shared_registry_broadcast.2 [(1, 7), (2, 8)] 1 7 "ev" (by decide),
    shared_registry_broadcast.2 [(1, 7), (2, 8)] 2 8 "ev" (by decide)⟩

/-- Claim C10: check_origin returns true for every origin string, so no
WebSocket connection is rejected on the basis of its origin. -/
theorem check_origin_always_true (origin : String) :
    check_origin origin = true :=
  rfl

end Handlers
